import Mathlib

/-!
Shallow embedding of `tr2make` (src/src/main.rs), a one-shot Makefile
generator: it loads a YAML configuration, derives compiler parameters from
the language / architecture / build mode, renders a fixed Makefile template
and writes it under the `build/<mode>-<architecture>` directory.
-/

set_option maxRecDepth 10000
set_option maxHeartbeats 1000000

/-- The CLI build mode (Rust enum `BuildModel`, src/src/main.rs lines 39-43). -/
inductive BuildModel
  | debug
  | release
deriving DecidableEq

/-- `BuildModel::as_str` (src/src/main.rs lines 45-52). -/
def BuildModel.as_str : BuildModel → String
  | .debug => "debug"
  | .release => "release"

/-- The platform the generator runs on: `cfg!(target_os = "windows")`
(src/src/main.rs line 77) is a compile-time test, modelled as a parameter. -/
inductive Platform
  | windows
  | other
deriving DecidableEq

/-- Rust struct `BuildConfig` (src/src/main.rs lines 22-25). -/
structure BuildConfig where
  targetdir : String
deriving DecidableEq

/-- Rust struct `BuildModels` (src/src/main.rs lines 16-20): both the
`debug` and the `release` entry are declared without `Option`, hence both
are required fields of the configuration file. -/
structure BuildModels where
  debug : BuildConfig
  release : BuildConfig
deriving DecidableEq

/-- Rust struct `Config` (src/src/main.rs lines 6-14).  The `standard`
field is a `serde_yaml::Number`; the spec restricts it to numeric language
standards (11, 17, 20, ...), modelled as `Nat`, rendered in decimal exactly
as Rust renders a nonnegative integer `Number`. -/
structure Config where
  language : String
  standard : Nat
  files : List String
  target : String
  architecture : String
  model : BuildModels
deriving DecidableEq

/-- The two fatal errors raised after the configuration has loaded
(src/src/main.rs lines 64 and 74). -/
inductive GenError
  | unsupportedLanguage
  | noValidFiles (file_ext : String)
deriving DecidableEq

/-- The message of each `GenError` (src/src/main.rs lines 64 and 74). -/
def GenError.message : GenError → String
  | .unsupportedLanguage => "Unsupported language"
  | .noValidFiles file_ext => "No valid " ++ file_ext ++ " files found"

/-- Rust `str::ends_with` with a string pattern: the pattern is a suffix of
the string (used at src/src/main.rs line 69). -/
def ends_with (s pat : String) : Bool :=
  List.isSuffixOf pat.data s.data

/-- Rust `str::to_uppercase`, character by character; this is exact for the
ASCII strings that reach it (`config.language`, already matched against
"c" / "c++", src/src/main.rs line 131). -/
def to_uppercase (s : String) : String :=
  ⟨s.data.map Char.toUpper⟩

/-- The language match (src/src/main.rs lines 61-65):
`language → (file_ext, compiler, std_prefix)`, `none` on the
"Unsupported language" panic arm. -/
def language_triple (language : String) : Option (String × String × String) :=
  if language = "c" then some (".c", "gcc", "c")
  else if language = "c++" then some (".cpp", "g++", "c++")
  else none

/-- The source-file filter (src/src/main.rs lines 67-71): keep the entries
of `config.files` that end with `file_ext`, in their original order. -/
def filtered_files (config : Config) (file_ext : String) : List String :=
  config.files.filter (fun f => ends_with f file_ext)

/-- The platform match (src/src/main.rs lines 77-89), yielding
`(target, clean_cmd, mkdir_cmd)`. -/
def platform_triple (plat : Platform) (target : String) : String × String × String :=
  match plat with
  | .windows =>
      (target ++ ".exe",
       "del /Q $(OBJ) $(TARGET)",
       "@if not exist \"$(OBJ_DIR)\" mkdir \"$(OBJ_DIR)\"")
  | .other =>
      (target,
       "rm -f $(OBJ) $(TARGET)",
       "@mkdir -p $(OBJ_DIR)")

/-- The architecture-flag match (src/src/main.rs lines 91-95). -/
def march (architecture : String) : String :=
  if architecture = "x64" then "-m64"
  else if architecture = "x86" then "-m32"
  else "-m" ++ architecture

/-- The output directory `format!("build/{}-{}", model, architecture)`
(src/src/main.rs line 58), created by `create_dir_all` at line 59. -/
def build_dir (model : BuildModel) (architecture : String) : String :=
  "build/" ++ model.as_str ++ "-" ++ architecture

/-- The debug indicator (src/src/main.rs line 97). -/
def debug_flag (model : BuildModel) : String :=
  match model with
  | .debug => "1"
  | .release => "0"

/-- The optimization flags (src/src/main.rs line 98), selected by comparing
the debug indicator with "1" exactly as the source does. -/
def optimization (df : String) : String :=
  if df = "1" then "-g -O0 -DDEBUG" else "-O2"

/-- The separator `std::path::Path::join` inserts between the build
directory and `"Makefile"` (src/src/main.rs line 147), platform-native. -/
def path_sep : Platform → String
  | .windows => "\\"
  | .other => "/"

/-- The Makefile template (src/src/main.rs lines 100-145): the `format!`
raw string, with one argument per substitution slot, named as in the
source (`marchf` for `march`, `std_pre` for the standard-flag part). -/
def makefile_content (lang compiler files target_dir target std_pre standard
    arch debug file_ext optimization marchf mkdir_cmd clean_cmd : String) :
    String :=
  "# " ++ lang ++ " Project Makefile\n" ++
  "CC := " ++ compiler ++ "\n" ++
  "SRC := " ++ files ++ "\n" ++
  "TARGET := " ++ target_dir ++ "/" ++ target ++ "\n" ++
  "STD := " ++ std_pre ++ standard ++ "\n" ++
  "ARCH := " ++ arch ++ "\n" ++
  "DEBUG := " ++ debug ++ "\n" ++ "\n" ++
  "OBJ_DIR := " ++ target_dir ++ "/obj\n" ++
  "OBJ := $(addprefix $(OBJ_DIR)/, $(SRC:" ++ file_ext ++ "=.o))\n" ++ "\n" ++
  "CFLAGS := " ++ optimization ++ " -std=$(STD) " ++ marchf ++ "\n" ++
  "LDFLAGS := " ++ marchf ++ "\n" ++ "\n" ++
  "all: create_dirs $(TARGET)\n\n" ++
  "$(TARGET): $(OBJ)\n\t$(CC) $^ -o $@ $(LDFLAGS)\n\n" ++
  "$(OBJ_DIR)/%.o: %" ++ file_ext ++ "\n\t" ++ mkdir_cmd ++
  "\n\t$(CC) $(CFLAGS) -c $< -o $@\n\n" ++
  "create_dirs:\n\t" ++ mkdir_cmd ++ "\n\n" ++
  "clean:\n\t" ++ clean_cmd ++ "\n\n" ++
  ".PHONY: all clean create_dirs\n"

/-- The observable outcome of one invocation after the configuration has
been loaded: directories created, the file written (path and content), and
the fatal error, if any. -/
structure RunOutput where
  dirsCreated : List String
  written : Option (String × String)
  err : Option GenError
deriving DecidableEq

/-- The body of `main` after the configuration load and argument parse
(src/src/main.rs lines 58-150), as a pure function of the parsed `Config`,
the selected `BuildModel` and the host `Platform`.  The source's local
`let` bindings (`build_dir`, `files`, the platform tuple, `march`,
`debug_flag`, `optimization`) are inlined through the named definitions
above.  Effects appear in `RunOutput` in program order:
`create_dir_all(build_dir)` runs at line 59, before the language match, so
the build directory is created even when the run aborts at line 64 or 74. -/
def run (config : Config) (model : BuildModel) (plat : Platform) : RunOutput :=
  match language_triple config.language with
  | none =>
      { dirsCreated := [build_dir model config.architecture], written := none,
        err := some .unsupportedLanguage }
  | some (file_ext, compiler, std_pre) =>
      if (filtered_files config file_ext).isEmpty then
        { dirsCreated := [build_dir model config.architecture], written := none,
          err := some (.noValidFiles file_ext) }
      else
        { dirsCreated := [build_dir model config.architecture],
          written := some
            (build_dir model config.architecture ++ (path_sep plat ++ "Makefile"),
             makefile_content (to_uppercase config.language) compiler
               (String.intercalate " " (filtered_files config file_ext))
               (build_dir model config.architecture)
               (platform_triple plat config.target).1 std_pre
               (toString config.standard) config.architecture
               (debug_flag model) file_ext
               (optimization (debug_flag model)) (march config.architecture)
               (platform_triple plat config.target).2.2
               (platform_triple plat config.target).2.1),
          err := none }

/-- `sub` occurs contiguously in `s`. -/
def ContainsSub (s sub : String) : Prop :=
  ∃ a b : String, s = a ++ (sub ++ b)

/-- Modelled from the spec: the YAML view of the `model` table before serde
validation.  The deserialization code is generated by serde's derive (not
in src/); spec section 4.1 requires every declared field, so a missing
`debug` or `release` entry fails the load. -/
structure RawBuildModels where
  debug : Option BuildConfig
  release : Option BuildConfig

/-- Modelled from the spec: the configuration document before serde
validation; each `Config` field may be absent. -/
structure RawConfig where
  language : Option String
  standard : Option Nat
  files : Option (List String)
  target : Option String
  architecture : Option String
  model : Option RawBuildModels

/-- Modelled from the spec: serde deserialization of `BuildModels`
(src/src/main.rs lines 16-20 declare both fields as required): absence of
either per-mode entry is a load failure. -/
def deserialize_models (r : RawBuildModels) : Option BuildModels :=
  match r.debug, r.release with
  | some d, some rl => some ⟨d, rl⟩
  | _, _ => none

/-- Modelled from the spec: serde deserialization of `Config`
(src/src/main.rs lines 6-14): every field is required; any missing field
is a Configuration Error that aborts before any derivation. -/
def deserialize_config (r : RawConfig) : Option Config :=
  match r.language, r.standard, r.files, r.target, r.architecture, r.model with
  | some l, some s, some f, some t, some a, some m =>
      (deserialize_models m).map (fun bm => ⟨l, s, f, t, a, bm⟩)
  | _, _, _, _, _, _ => none

/-- The whole pipeline: load the configuration (src/src/main.rs line 55),
then generate; `none` when the load aborts. -/
def load_and_run (r : RawConfig) (model : BuildModel) (plat : Platform) :
    Option RunOutput :=
  (deserialize_config r).map (fun cfg => run cfg model plat)

/-- Modelled from the spec: clap's mapping of a `ValueEnum` value string to
`BuildModel` (src/src/main.rs lines 39-43): only "debug" and "release" are
accepted. -/
def parse_model_value (v : String) : Option BuildModel :=
  if v = "debug" then some .debug
  else if v = "release" then some .release
  else none

/-- Modelled from the spec: clap's parsing of `Args`
(src/src/main.rs lines 34-37).  The single `model` argument may be given
positionally (index 1) or flagged (`-m` / `--model`); when absent it
defaults to "debug"; anything else is rejected. -/
def parse_args (argv : List String) : Option BuildModel :=
  match argv with
  | [] => some .debug
  | [v] => parse_model_value v
  | ["-m", v] => parse_model_value v
  | ["--model", v] => parse_model_value v
  | _ => none

/-- Configuration with an unrecognized language, for C1. -/
def exConfigBad : Config :=
  ⟨"rust", 17, ["a.c"], "app", "x64", ⟨⟨"out"⟩, ⟨"out"⟩⟩⟩

/-- The spec's end-to-end example configuration, completed with a release
entry (`rel`), for C2. -/
def exConfigC2 (rel : BuildConfig) : Config :=
  ⟨"c", 17, ["a.c", "b.cpp", "c.c"], "app", "x64", ⟨⟨"out"⟩, rel⟩⟩

/-- The spec's end-to-end example configuration exactly as written: the
`model` table carries only a `debug` entry. -/
def exRawC2 : RawConfig :=
  ⟨some "c", some 17, some ["a.c", "b.cpp", "c.c"], some "app", some "x64",
   some ⟨some ⟨"out"⟩, none⟩⟩

/-- The Makefile rendered for the C2 example (mode debug, non-Windows). -/
def exMakefileC2 : String :=
  "# C Project Makefile\nCC := gcc\nSRC := a.c c.c\nTARGET := build/debug-x64/app\nSTD := c17\nARCH := x64\nDEBUG := 1\n\nOBJ_DIR := build/debug-x64/obj\nOBJ := $(addprefix $(OBJ_DIR)/, $(SRC:.c=.o))\n\nCFLAGS := -g -O0 -DDEBUG -std=$(STD) -m64\nLDFLAGS := -m64\n\nall: create_dirs $(TARGET)\n\n$(TARGET): $(OBJ)\n\t$(CC) $^ -o $@ $(LDFLAGS)\n\n$(OBJ_DIR)/%.o: %.c\n\t@mkdir -p $(OBJ_DIR)\n\t$(CC) $(CFLAGS) -c $< -o $@\n\ncreate_dirs:\n\t@mkdir -p $(OBJ_DIR)\n\nclean:\n\trm -f $(OBJ) $(TARGET)\n\n.PHONY: all clean create_dirs\n"

/-- A well-formed C configuration used to instantiate hypotheses. -/
def exConfigW : Config :=
  ⟨"c", 17, ["a.c", "b.cpp", "c.c"], "app", "x64", ⟨⟨"out"⟩, ⟨"out"⟩⟩⟩

/-- A configuration whose file list has no C source, for C5. -/
def exConfigEmpty : Config :=
  ⟨"c", 11, ["b.cpp"], "app", "x86", ⟨⟨"out"⟩, ⟨"out"⟩⟩⟩

/-- Substring containment transports along an equality of the substring. -/
theorem containsSub_congr {s t u : String} (h : ContainsSub s t) (e : t = u) :
    ContainsSub s u :=
  e ▸ h

/-- `run` never reads `Config.model`: outputs agree whenever every other
field agrees. -/
theorem run_model_irrel (l : String) (s : Nat) (f : List String) (t a : String)
    (m₁ m₂ : BuildModels) (mode : BuildModel) (plat : Platform) :
    run ⟨l, s, f, t, a, m₁⟩ mode plat = run ⟨l, s, f, t, a, m₂⟩ mode plat := rfl

/-- On an unrecognized language, `run` records the created build directory,
writes nothing, and aborts with the Unsupported Language error. -/
theorem run_unsupported_eq (cfg : Config) (mode : BuildModel) (plat : Platform)
    (hl : language_triple cfg.language = none) :
    run cfg mode plat =
      { dirsCreated := [build_dir mode cfg.architecture], written := none,
        err := some .unsupportedLanguage } := by
  unfold run
  rw [hl]

/-- On an empty filtered source list, `run` records the created build
directory, writes nothing, and aborts with the no-valid-files error. -/
theorem run_no_valid_eq (cfg : Config) (mode : BuildModel) (plat : Platform)
    (fe c sp : String) (hl : language_triple cfg.language = some (fe, c, sp))
    (he : filtered_files cfg fe = []) :
    run cfg mode plat =
      { dirsCreated := [build_dir mode cfg.architecture], written := none,
        err := some (.noValidFiles fe) } := by
  unfold run
  rw [hl]
  simp [he]

/-- On a recognized language and a nonempty filtered source list, `run`
writes the rendered template to `build_dir/Makefile`. -/
theorem run_success_eq (cfg : Config) (mode : BuildModel) (plat : Platform)
    (fe c sp : String) (hl : language_triple cfg.language = some (fe, c, sp))
    (hne : filtered_files cfg fe ≠ []) :
    run cfg mode plat =
      { dirsCreated := [build_dir mode cfg.architecture],
        written := some
          (build_dir mode cfg.architecture ++ (path_sep plat ++ "Makefile"),
           makefile_content (to_uppercase cfg.language) c
             (String.intercalate " " (filtered_files cfg fe))
             (build_dir mode cfg.architecture)
             (platform_triple plat cfg.target).1 sp
             (toString cfg.standard) cfg.architecture
             (debug_flag mode) fe
             (optimization (debug_flag mode)) (march cfg.architecture)
             (platform_triple plat cfg.target).2.2
             (platform_triple plat cfg.target).2.1),
        err := none } := by
  have h2 : (filtered_files cfg fe).isEmpty = false := by
    cases hfe : filtered_files cfg fe with
    | nil => exact absurd hfe hne
    | cons x xs => rfl
  unfold run
  rw [hl]
  simp [h2]

/-- The rendered template contains its `CC :=` line. -/
theorem mc_contains_cc (lang compiler files target_dir target std_pre standard
    arch debug file_ext optimization marchf mkdir_cmd clean_cmd : String) :
    ContainsSub
      (makefile_content lang compiler files target_dir target std_pre standard
        arch debug file_ext optimization marchf mkdir_cmd clean_cmd)
      ("CC := " ++ compiler ++ "\n") :=
  ⟨"# " ++ lang ++ " Project Makefile\n",
   "SRC := " ++ files ++ "\n" ++ "TARGET := " ++ target_dir ++ "/" ++ target ++ "\n" ++ "STD := " ++ std_pre ++ standard ++ "\n" ++ "ARCH := " ++ arch ++ "\n" ++ "DEBUG := " ++ debug ++ "\n" ++ "\n" ++ "OBJ_DIR := " ++ target_dir ++ "/obj\n" ++ "OBJ := $(addprefix $(OBJ_DIR)/, $(SRC:" ++ file_ext ++ "=.o))\n" ++ "\n" ++ "CFLAGS := " ++ optimization ++ " -std=$(STD) " ++ marchf ++ "\n" ++ "LDFLAGS := " ++ marchf ++ "\n" ++ "\n" ++ "all: create_dirs $(TARGET)\n\n" ++ "$(TARGET): $(OBJ)\n\t$(CC) $^ -o $@ $(LDFLAGS)\n\n" ++ "$(OBJ_DIR)/%.o: %" ++ file_ext ++ "\n\t" ++ mkdir_cmd ++ "\n\t$(CC) $(CFLAGS) -c $< -o $@\n\n" ++ "create_dirs:\n\t" ++ mkdir_cmd ++ "\n\n" ++ "clean:\n\t" ++ clean_cmd ++ "\n\n" ++ ".PHONY: all clean create_dirs\n",
   by simp only [makefile_content, String.append_assoc]⟩

/-- The rendered template contains its `OBJ :=` extension-substitution
line. -/
theorem mc_contains_obj (lang compiler files target_dir target std_pre standard
    arch debug file_ext optimization marchf mkdir_cmd clean_cmd : String) :
    ContainsSub
      (makefile_content lang compiler files target_dir target std_pre standard
        arch debug file_ext optimization marchf mkdir_cmd clean_cmd)
      ("OBJ := $(addprefix $(OBJ_DIR)/, $(SRC:" ++ file_ext ++ "=.o))\n") :=
  ⟨"# " ++ lang ++ " Project Makefile\n" ++ "CC := " ++ compiler ++ "\n" ++ "SRC := " ++ files ++ "\n" ++ "TARGET := " ++ target_dir ++ "/" ++ target ++ "\n" ++ "STD := " ++ std_pre ++ standard ++ "\n" ++ "ARCH := " ++ arch ++ "\n" ++ "DEBUG := " ++ debug ++ "\n" ++ "\n" ++ "OBJ_DIR := " ++ target_dir ++ "/obj\n",
   "\n" ++ "CFLAGS := " ++ optimization ++ " -std=$(STD) " ++ marchf ++ "\n" ++ "LDFLAGS := " ++ marchf ++ "\n" ++ "\n" ++ "all: create_dirs $(TARGET)\n\n" ++ "$(TARGET): $(OBJ)\n\t$(CC) $^ -o $@ $(LDFLAGS)\n\n" ++ "$(OBJ_DIR)/%.o: %" ++ file_ext ++ "\n\t" ++ mkdir_cmd ++ "\n\t$(CC) $(CFLAGS) -c $< -o $@\n\n" ++ "create_dirs:\n\t" ++ mkdir_cmd ++ "\n\n" ++ "clean:\n\t" ++ clean_cmd ++ "\n\n" ++ ".PHONY: all clean create_dirs\n",
   by simp only [makefile_content, String.append_assoc]⟩

/-- The rendered template contains its `DEBUG :=` indicator. -/
theorem mc_contains_debug (lang compiler files target_dir target std_pre standard
    arch debug file_ext optimization marchf mkdir_cmd clean_cmd : String) :
    ContainsSub
      (makefile_content lang compiler files target_dir target std_pre standard
        arch debug file_ext optimization marchf mkdir_cmd clean_cmd)
      ("DEBUG := " ++ debug) :=
  ⟨"# " ++ lang ++ " Project Makefile\n" ++ "CC := " ++ compiler ++ "\n" ++ "SRC := " ++ files ++ "\n" ++ "TARGET := " ++ target_dir ++ "/" ++ target ++ "\n" ++ "STD := " ++ std_pre ++ standard ++ "\n" ++ "ARCH := " ++ arch ++ "\n",
   "\n" ++ "\n" ++ "OBJ_DIR := " ++ target_dir ++ "/obj\n" ++ "OBJ := $(addprefix $(OBJ_DIR)/, $(SRC:" ++ file_ext ++ "=.o))\n" ++ "\n" ++ "CFLAGS := " ++ optimization ++ " -std=$(STD) " ++ marchf ++ "\n" ++ "LDFLAGS := " ++ marchf ++ "\n" ++ "\n" ++ "all: create_dirs $(TARGET)\n\n" ++ "$(TARGET): $(OBJ)\n\t$(CC) $^ -o $@ $(LDFLAGS)\n\n" ++ "$(OBJ_DIR)/%.o: %" ++ file_ext ++ "\n\t" ++ mkdir_cmd ++ "\n\t$(CC) $(CFLAGS) -c $< -o $@\n\n" ++ "create_dirs:\n\t" ++ mkdir_cmd ++ "\n\n" ++ "clean:\n\t" ++ clean_cmd ++ "\n\n" ++ ".PHONY: all clean create_dirs\n",
   by simp only [makefile_content, String.append_assoc]⟩

/-- The rendered template contains its optimization flags, inside the
`CFLAGS :=` line. -/
theorem mc_contains_optimization (lang compiler files target_dir target std_pre
    standard arch debug file_ext optimization marchf mkdir_cmd clean_cmd : String) :
    ContainsSub
      (makefile_content lang compiler files target_dir target std_pre standard
        arch debug file_ext optimization marchf mkdir_cmd clean_cmd)
      optimization :=
  ⟨"# " ++ lang ++ " Project Makefile\n" ++ "CC := " ++ compiler ++ "\n" ++ "SRC := " ++ files ++ "\n" ++ "TARGET := " ++ target_dir ++ "/" ++ target ++ "\n" ++ "STD := " ++ std_pre ++ standard ++ "\n" ++ "ARCH := " ++ arch ++ "\n" ++ "DEBUG := " ++ debug ++ "\n" ++ "\n" ++ "OBJ_DIR := " ++ target_dir ++ "/obj\n" ++ "OBJ := $(addprefix $(OBJ_DIR)/, $(SRC:" ++ file_ext ++ "=.o))\n" ++ "\n" ++ "CFLAGS := ",
   " -std=$(STD) " ++ marchf ++ "\n" ++ "LDFLAGS := " ++ marchf ++ "\n" ++ "\n" ++ "all: create_dirs $(TARGET)\n\n" ++ "$(TARGET): $(OBJ)\n\t$(CC) $^ -o $@ $(LDFLAGS)\n\n" ++ "$(OBJ_DIR)/%.o: %" ++ file_ext ++ "\n\t" ++ mkdir_cmd ++ "\n\t$(CC) $(CFLAGS) -c $< -o $@\n\n" ++ "create_dirs:\n\t" ++ mkdir_cmd ++ "\n\n" ++ "clean:\n\t" ++ clean_cmd ++ "\n\n" ++ ".PHONY: all clean create_dirs\n",
   by simp only [makefile_content, String.append_assoc]⟩

/-- C1 counterexample: with language "rust" (unrecognized) the run does
abort with the Unsupported Language error, but the output directory
`build/debug-x64` has already been created, so the claim's "no output
directory is created" is false at this input. -/
theorem c1_unsupported_counterexample :
    (run exConfigBad .debug .other).err = some .unsupportedLanguage ∧
    (run exConfigBad .debug .other).dirsCreated = ["build/debug-x64"] ∧
    (run exConfigBad .debug .other).dirsCreated ≠ [] := by
  refine ⟨?_, ?_, ?_⟩ <;> decide

/-- C1 (amended): for every configuration whose language is not "c" or
"c++", the run fails with the Unsupported Language error and writes no
output file; the output directory `build/<mode>-<architecture>` is created
before the language check, so it does exist. -/
theorem c1_unsupported_language (cfg : Config) (mode : BuildModel)
    (plat : Platform) (h1 : cfg.language ≠ "c") (h2 : cfg.language ≠ "c++") :
    run cfg mode plat =
      { dirsCreated := [build_dir mode cfg.architecture], written := none,
        err := some .unsupportedLanguage } := by
  have hl : language_triple cfg.language = none := by
    unfold language_triple
    rw [if_neg h1, if_neg h2]
  exact run_unsupported_eq cfg mode plat hl

/-- C1 witness: the amended claim at the concrete "rust" configuration. -/
theorem c1_unsupported_language_witness :
    run exConfigBad .debug .other =
      { dirsCreated := [build_dir .debug "x64"], written := none,
        err := some .unsupportedLanguage } :=
  c1_unsupported_language exConfigBad .debug .other
    (by decide) (by decide)

/-- C2 counterexample: the spec's example configuration, taken literally,
has no `model.release` entry, so it fails serde deserialization (missing
required field) and the run never happens, let alone succeeds. -/
theorem c2_example_counterexample :
    deserialize_config exRawC2 = none ∧
    load_and_run exRawC2 .debug .other = none := by
  refine ⟨?_, ?_⟩ <;> rfl

/-- C2 (amended): with `model.release` also present (any value `rel`), the
run on the example configuration in debug mode succeeds, writes to
`build/debug-x64/Makefile`, and the rendered content has SRC
"a.c c.c" (b.cpp excluded), STD "c17", ARCH "x64", and a CFLAGS line
containing "-g -O0 -DDEBUG" and "-m64". -/
theorem c2_end_to_end (rel : BuildConfig) :
    run (exConfigC2 rel) .debug .other =
      { dirsCreated := ["build/debug-x64"],
        written := some ("build/debug-x64/Makefile", exMakefileC2),
        err := none } ∧
    ContainsSub exMakefileC2 "SRC := a.c c.c\n" ∧
    ContainsSub exMakefileC2 "STD := c17\n" ∧
    ContainsSub exMakefileC2 "ARCH := x64\n" ∧
    ContainsSub exMakefileC2 "CFLAGS := -g -O0 -DDEBUG -std=$(STD) -m64\n" ∧
    ContainsSub exMakefileC2 "-g -O0 -DDEBUG" ∧
    ContainsSub exMakefileC2 "-m64" :=
  ⟨(run_model_irrel "c" 17 ["a.c", "b.cpp", "c.c"] "app" "x64"
      ⟨⟨"out"⟩, rel⟩ ⟨⟨"out"⟩, ⟨"out"⟩⟩ .debug .other).trans (by decide),
   ⟨"# C Project Makefile\nCC := gcc\n",
    "TARGET := build/debug-x64/app\nSTD := c17\nARCH := x64\nDEBUG := 1\n\nOBJ_DIR := build/debug-x64/obj\nOBJ := $(addprefix $(OBJ_DIR)/, $(SRC:.c=.o))\n\nCFLAGS := -g -O0 -DDEBUG -std=$(STD) -m64\nLDFLAGS := -m64\n\nall: create_dirs $(TARGET)\n\n$(TARGET): $(OBJ)\n\t$(CC) $^ -o $@ $(LDFLAGS)\n\n$(OBJ_DIR)/%.o: %.c\n\t@mkdir -p $(OBJ_DIR)\n\t$(CC) $(CFLAGS) -c $< -o $@\n\ncreate_dirs:\n\t@mkdir -p $(OBJ_DIR)\n\nclean:\n\trm -f $(OBJ) $(TARGET)\n\n.PHONY: all clean create_dirs\n",
    by decide⟩,
   ⟨"# C Project Makefile\nCC := gcc\nSRC := a.c c.c\nTARGET := build/debug-x64/app\n",
    "ARCH := x64\nDEBUG := 1\n\nOBJ_DIR := build/debug-x64/obj\nOBJ := $(addprefix $(OBJ_DIR)/, $(SRC:.c=.o))\n\nCFLAGS := -g -O0 -DDEBUG -std=$(STD) -m64\nLDFLAGS := -m64\n\nall: create_dirs $(TARGET)\n\n$(TARGET): $(OBJ)\n\t$(CC) $^ -o $@ $(LDFLAGS)\n\n$(OBJ_DIR)/%.o: %.c\n\t@mkdir -p $(OBJ_DIR)\n\t$(CC) $(CFLAGS) -c $< -o $@\n\ncreate_dirs:\n\t@mkdir -p $(OBJ_DIR)\n\nclean:\n\trm -f $(OBJ) $(TARGET)\n\n.PHONY: all clean create_dirs\n",
    by decide⟩,
   ⟨"# C Project Makefile\nCC := gcc\nSRC := a.c c.c\nTARGET := build/debug-x64/app\nSTD := c17\n",
    "DEBUG := 1\n\nOBJ_DIR := build/debug-x64/obj\nOBJ := $(addprefix $(OBJ_DIR)/, $(SRC:.c=.o))\n\nCFLAGS := -g -O0 -DDEBUG -std=$(STD) -m64\nLDFLAGS := -m64\n\nall: create_dirs $(TARGET)\n\n$(TARGET): $(OBJ)\n\t$(CC) $^ -o $@ $(LDFLAGS)\n\n$(OBJ_DIR)/%.o: %.c\n\t@mkdir -p $(OBJ_DIR)\n\t$(CC) $(CFLAGS) -c $< -o $@\n\ncreate_dirs:\n\t@mkdir -p $(OBJ_DIR)\n\nclean:\n\trm -f $(OBJ) $(TARGET)\n\n.PHONY: all clean create_dirs\n",
    by decide⟩,
   ⟨"# C Project Makefile\nCC := gcc\nSRC := a.c c.c\nTARGET := build/debug-x64/app\nSTD := c17\nARCH := x64\nDEBUG := 1\n\nOBJ_DIR := build/debug-x64/obj\nOBJ := $(addprefix $(OBJ_DIR)/, $(SRC:.c=.o))\n\n",
    "LDFLAGS := -m64\n\nall: create_dirs $(TARGET)\n\n$(TARGET): $(OBJ)\n\t$(CC) $^ -o $@ $(LDFLAGS)\n\n$(OBJ_DIR)/%.o: %.c\n\t@mkdir -p $(OBJ_DIR)\n\t$(CC) $(CFLAGS) -c $< -o $@\n\ncreate_dirs:\n\t@mkdir -p $(OBJ_DIR)\n\nclean:\n\trm -f $(OBJ) $(TARGET)\n\n.PHONY: all clean create_dirs\n",
    by decide⟩,
   ⟨"# C Project Makefile\nCC := gcc\nSRC := a.c c.c\nTARGET := build/debug-x64/app\nSTD := c17\nARCH := x64\nDEBUG := 1\n\nOBJ_DIR := build/debug-x64/obj\nOBJ := $(addprefix $(OBJ_DIR)/, $(SRC:.c=.o))\n\nCFLAGS := ",
    " -std=$(STD) -m64\nLDFLAGS := -m64\n\nall: create_dirs $(TARGET)\n\n$(TARGET): $(OBJ)\n\t$(CC) $^ -o $@ $(LDFLAGS)\n\n$(OBJ_DIR)/%.o: %.c\n\t@mkdir -p $(OBJ_DIR)\n\t$(CC) $(CFLAGS) -c $< -o $@\n\ncreate_dirs:\n\t@mkdir -p $(OBJ_DIR)\n\nclean:\n\trm -f $(OBJ) $(TARGET)\n\n.PHONY: all clean create_dirs\n",
    by decide⟩,
   ⟨"# C Project Makefile\nCC := gcc\nSRC := a.c c.c\nTARGET := build/debug-x64/app\nSTD := c17\nARCH := x64\nDEBUG := 1\n\nOBJ_DIR := build/debug-x64/obj\nOBJ := $(addprefix $(OBJ_DIR)/, $(SRC:.c=.o))\n\nCFLAGS := -g -O0 -DDEBUG -std=$(STD) ",
    "\nLDFLAGS := -m64\n\nall: create_dirs $(TARGET)\n\n$(TARGET): $(OBJ)\n\t$(CC) $^ -o $@ $(LDFLAGS)\n\n$(OBJ_DIR)/%.o: %.c\n\t@mkdir -p $(OBJ_DIR)\n\t$(CC) $(CFLAGS) -c $< -o $@\n\ncreate_dirs:\n\t@mkdir -p $(OBJ_DIR)\n\nclean:\n\trm -f $(OBJ) $(TARGET)\n\n.PHONY: all clean create_dirs\n",
    by decide⟩⟩

/-- C3: the language derivation table maps "c" to (".c", "gcc", "c") and
"c++" to (".cpp", "g++", "c++"); on every successful run the rendered
script's CC line carries that compiler, and the extension-substitution line
uses that extension. -/
theorem c3_compiler_and_extension (cfg : Config) (mode : BuildModel)
    (plat : Platform) :
    language_triple "c" = some (".c", "gcc", "c") ∧
    language_triple "c++" = some (".cpp", "g++", "c++") ∧
    (cfg.language = "c" → filtered_files cfg ".c" ≠ [] →
      ∃ p content, (run cfg mode plat).written = some (p, content) ∧
        ContainsSub content "CC := gcc\n" ∧
        ContainsSub content "OBJ := $(addprefix $(OBJ_DIR)/, $(SRC:.c=.o))\n") ∧
    (cfg.language = "c++" → filtered_files cfg ".cpp" ≠ [] →
      ∃ p content, (run cfg mode plat).written = some (p, content) ∧
        ContainsSub content "CC := g++\n" ∧
        ContainsSub content "OBJ := $(addprefix $(OBJ_DIR)/, $(SRC:.cpp=.o))\n") := by
  refine ⟨rfl, rfl, ?_, ?_⟩
  · intro hl hne
    have hlt : language_triple cfg.language = some (".c", "gcc", "c") := by
      rw [hl]; decide
    have h := run_success_eq cfg mode plat ".c" "gcc" "c" hlt hne
    refine ⟨build_dir mode cfg.architecture ++ (path_sep plat ++ "Makefile"),
      makefile_content (to_uppercase cfg.language) "gcc"
        (String.intercalate " " (filtered_files cfg ".c"))
        (build_dir mode cfg.architecture) (platform_triple plat cfg.target).1
        "c" (toString cfg.standard) cfg.architecture (debug_flag mode) ".c"
        (optimization (debug_flag mode)) (march cfg.architecture)
        (platform_triple plat cfg.target).2.2 (platform_triple plat cfg.target).2.1,
      ?_, ?_, ?_⟩
    · rw [h]
    · exact containsSub_congr
        (mc_contains_cc _ _ _ _ _ _ _ _ _ _ _ _ _ _) rfl
    · exact containsSub_congr
        (mc_contains_obj _ _ _ _ _ _ _ _ _ _ _ _ _ _) rfl
  · intro hl hne
    have hlt : language_triple cfg.language = some (".cpp", "g++", "c++") := by
      rw [hl]; decide
    have h := run_success_eq cfg mode plat ".cpp" "g++" "c++" hlt hne
    refine ⟨build_dir mode cfg.architecture ++ (path_sep plat ++ "Makefile"),
      makefile_content (to_uppercase cfg.language) "g++"
        (String.intercalate " " (filtered_files cfg ".cpp"))
        (build_dir mode cfg.architecture) (platform_triple plat cfg.target).1
        "c++" (toString cfg.standard) cfg.architecture (debug_flag mode) ".cpp"
        (optimization (debug_flag mode)) (march cfg.architecture)
        (platform_triple plat cfg.target).2.2 (platform_triple plat cfg.target).2.1,
      ?_, ?_, ?_⟩
    · rw [h]
    · exact containsSub_congr
        (mc_contains_cc _ _ _ _ _ _ _ _ _ _ _ _ _ _) rfl
    · exact containsSub_congr
        (mc_contains_obj _ _ _ _ _ _ _ _ _ _ _ _ _ _) rfl

/-- C3 witness: the "c" branch at a concrete configuration. -/
theorem c3_compiler_and_extension_witness :
    language_triple "c" = some (".c", "gcc", "c") ∧
    (∃ p content, (run exConfigW .debug .other).written = some (p, content) ∧
      ContainsSub content "CC := gcc\n" ∧
      ContainsSub content "OBJ := $(addprefix $(OBJ_DIR)/, $(SRC:.c=.o))\n") :=
  ⟨(c3_compiler_and_extension exConfigW .debug .other).1,
   (c3_compiler_and_extension exConfigW .debug .other).2.2.1
     rfl (by decide)⟩

/-- C4: the filtered source list is a sublist of the configured files
(original order preserved) and consists of exactly those entries that end
with the language's derived extension, occurrence counts included. -/
theorem c4_filter_exact (cfg : Config) (fe c sp : String)
    (_hl : language_triple cfg.language = some (fe, c, sp)) :
    (filtered_files cfg fe).Sublist cfg.files ∧
    (∀ x, x ∈ filtered_files cfg fe ↔ x ∈ cfg.files ∧ ends_with x fe = true) ∧
    (∀ x, (filtered_files cfg fe).count x =
      if ends_with x fe then cfg.files.count x else 0) := by
  refine ⟨List.filter_sublist _, fun x => List.mem_filter, fun x => ?_⟩
  by_cases hx : ends_with x fe = true
  · rw [if_pos ?_]
    · exact List.count_filter hx
    · exact hx
  · rw [if_neg ?_]
    · exact List.count_eq_zero.mpr
        (fun hmem => hx (List.mem_filter.mp hmem).2)
    · exact hx

/-- C4 witness: the filter characterization at a concrete configuration,
evaluated at the kept entry "a.c" and the dropped entry "b.cpp". -/
theorem c4_filter_exact_witness :
    (filtered_files exConfigW ".c").Sublist exConfigW.files ∧
    ("a.c" ∈ filtered_files exConfigW ".c" ↔
      "a.c" ∈ exConfigW.files ∧ ends_with "a.c" ".c" = true) ∧
    ((filtered_files exConfigW ".c").count "b.cpp" =
      if ends_with "b.cpp" ".c" then exConfigW.files.count "b.cpp" else 0) :=
  ⟨(c4_filter_exact exConfigW ".c" "gcc" "c" (by decide)).1,
   (c4_filter_exact exConfigW ".c" "gcc" "c" (by decide)).2.1 "a.c",
   (c4_filter_exact exConfigW ".c" "gcc" "c" (by decide)).2.2 "b.cpp"⟩

/-- C5: with a recognized language and no configured file ending in the
derived extension, the run aborts with the empty-source-set error (message
"No valid <ext> files found") and writes no output file; the build
directory was already created. -/
theorem c5_empty_source_set (cfg : Config) (mode : BuildModel)
    (plat : Platform) (fe c sp : String)
    (hl : language_triple cfg.language = some (fe, c, sp))
    (he : filtered_files cfg fe = []) :
    run cfg mode plat =
      { dirsCreated := [build_dir mode cfg.architecture], written := none,
        err := some (.noValidFiles fe) } ∧
    (GenError.noValidFiles fe).message = "No valid " ++ fe ++ " files found" :=
  ⟨run_no_valid_eq cfg mode plat fe c sp hl he, rfl⟩

/-- C5 witness: a C configuration whose only file is "b.cpp". -/
theorem c5_empty_source_set_witness :
    run exConfigEmpty .debug .other =
      { dirsCreated := [build_dir .debug "x86"], written := none,
        err := some (.noValidFiles ".c") } ∧
    (GenError.noValidFiles ".c").message = "No valid .c files found" :=
  c5_empty_source_set exConfigEmpty .debug .other ".c" "gcc" "c"
    (by decide) (by decide)

/-- C6: the architecture flag is "-m64" for "x64", "-m32" for "x86", and
"-m" followed by the architecture string verbatim otherwise. -/
theorem c6_march_flags :
    march "x64" = "-m64" ∧ march "x86" = "-m32" ∧
    ∀ s : String, s ≠ "x64" → s ≠ "x86" → march s = "-m" ++ s := by
  refine ⟨by decide, by decide, fun s h1 h2 => ?_⟩
  unfold march
  rw [if_neg h1, if_neg h2]

/-- C6 witness: the fallback branch evaluated at "arm". -/
theorem c6_march_flags_witness :
    march "x64" = "-m64" ∧ march "x86" = "-m32" ∧ march "arm" = "-m" ++ "arm" :=
  ⟨c6_march_flags.1, c6_march_flags.2.1,
   c6_march_flags.2.2 "arm" (by decide) (by decide)⟩

/-- C7: for a valid configuration, the debug run renders the template with
target directory `build/debug-<arch>`, debug indicator "1" and
optimization "-g -O0 -DDEBUG", and the release run renders the same
template with the same substitutions except target directory
`build/release-<arch>`, indicator "0" and optimization "-O2"; the debug
content contains "DEBUG := 1" and "-g -O0 -DDEBUG", the release content
"DEBUG := 0" and "-O2". -/
theorem c7_mode_dependent_fields (cfg : Config) (plat : Platform)
    (fe c sp : String)
    (hl : language_triple cfg.language = some (fe, c, sp))
    (hne : filtered_files cfg fe ≠ []) :
    ∃ cD cR : String,
      (run cfg .debug plat).written =
        some (build_dir .debug cfg.architecture ++ (path_sep plat ++ "Makefile"), cD) ∧
      (run cfg .release plat).written =
        some (build_dir .release cfg.architecture ++ (path_sep plat ++ "Makefile"), cR) ∧
      cD = makefile_content (to_uppercase cfg.language) c
        (String.intercalate " " (filtered_files cfg fe))
        (build_dir .debug cfg.architecture) (platform_triple plat cfg.target).1
        sp (toString cfg.standard) cfg.architecture "1" fe
        "-g -O0 -DDEBUG" (march cfg.architecture)
        (platform_triple plat cfg.target).2.2 (platform_triple plat cfg.target).2.1 ∧
      cR = makefile_content (to_uppercase cfg.language) c
        (String.intercalate " " (filtered_files cfg fe))
        (build_dir .release cfg.architecture) (platform_triple plat cfg.target).1
        sp (toString cfg.standard) cfg.architecture "0" fe
        "-O2" (march cfg.architecture)
        (platform_triple plat cfg.target).2.2 (platform_triple plat cfg.target).2.1 ∧
      ContainsSub cD "DEBUG := 1" ∧ ContainsSub cD "-g -O0 -DDEBUG" ∧
      ContainsSub cR "DEBUG := 0" ∧ ContainsSub cR "-O2" := by
  have hD := run_success_eq cfg .debug plat fe c sp hl hne
  have hR := run_success_eq cfg .release plat fe c sp hl hne
  refine ⟨makefile_content (to_uppercase cfg.language) c
      (String.intercalate " " (filtered_files cfg fe))
      (build_dir .debug cfg.architecture) (platform_triple plat cfg.target).1
      sp (toString cfg.standard) cfg.architecture "1" fe
      "-g -O0 -DDEBUG" (march cfg.architecture)
      (platform_triple plat cfg.target).2.2 (platform_triple plat cfg.target).2.1,
    makefile_content (to_uppercase cfg.language) c
      (String.intercalate " " (filtered_files cfg fe))
      (build_dir .release cfg.architecture) (platform_triple plat cfg.target).1
      sp (toString cfg.standard) cfg.architecture "0" fe
      "-O2" (march cfg.architecture)
      (platform_triple plat cfg.target).2.2 (platform_triple plat cfg.target).2.1,
    ?_, ?_, rfl, rfl, ?_, ?_, ?_, ?_⟩
  · rw [hD]; rfl
  · rw [hR]; rfl
  · exact containsSub_congr
      (mc_contains_debug _ _ _ _ _ _ _ _ _ _ _ _ _ _) rfl
  · exact containsSub_congr
      (mc_contains_optimization _ _ _ _ _ _ _ _ _ _ _ _ _ _) rfl
  · exact containsSub_congr
      (mc_contains_debug _ _ _ _ _ _ _ _ _ _ _ _ _ _) rfl
  · exact containsSub_congr
      (mc_contains_optimization _ _ _ _ _ _ _ _ _ _ _ _ _ _) rfl

/-- C7 witness: the mode comparison at a concrete configuration. -/
theorem c7_mode_dependent_fields_witness :
    ∃ cD cR : String,
      (run exConfigW .debug .other).written =
        some (build_dir .debug exConfigW.architecture ++ (path_sep .other ++ "Makefile"), cD) ∧
      (run exConfigW .release .other).written =
        some (build_dir .release exConfigW.architecture ++ (path_sep .other ++ "Makefile"), cR) ∧
      cD = makefile_content (to_uppercase exConfigW.language) "gcc"
        (String.intercalate " " (filtered_files exConfigW ".c"))
        (build_dir .debug exConfigW.architecture) (platform_triple .other exConfigW.target).1
        "c" (toString exConfigW.standard) exConfigW.architecture "1" ".c"
        "-g -O0 -DDEBUG" (march exConfigW.architecture)
        (platform_triple .other exConfigW.target).2.2 (platform_triple .other exConfigW.target).2.1 ∧
      cR = makefile_content (to_uppercase exConfigW.language) "gcc"
        (String.intercalate " " (filtered_files exConfigW ".c"))
        (build_dir .release exConfigW.architecture) (platform_triple .other exConfigW.target).1
        "c" (toString exConfigW.standard) exConfigW.architecture "0" ".c"
        "-O2" (march exConfigW.architecture)
        (platform_triple .other exConfigW.target).2.2 (platform_triple .other exConfigW.target).2.1 ∧
      ContainsSub cD "DEBUG := 1" ∧ ContainsSub cD "-g -O0 -DDEBUG" ∧
      ContainsSub cR "DEBUG := 0" ∧ ContainsSub cR "-O2" :=
  c7_mode_dependent_fields exConfigW .other ".c" "gcc" "c"
    (by decide) (by decide)

/-- C8: the generator is a deterministic function of the configuration,
the mode and the host platform: equal inputs yield byte-identical
outputs. -/
theorem c8_deterministic (cfg₁ cfg₂ : Config) (m₁ m₂ : BuildModel)
    (p₁ p₂ : Platform) (hc : cfg₁ = cfg₂) (hm : m₁ = m₂) (hp : p₁ = p₂) :
    run cfg₁ m₁ p₁ = run cfg₂ m₂ p₂ := by
  subst hc; subst hm; subst hp; rfl

/-- C8 witness: two identical invocations on a concrete configuration. -/
theorem c8_deterministic_witness :
    run exConfigW .debug .other = run exConfigW .debug .other :=
  c8_deterministic exConfigW exConfigW .debug .debug .other .other rfl rfl rfl

/-- C9: the CLI accepts one optional build-mode argument, positional or
flagged, with values exactly "debug" and "release"; absent, it defaults to
debug; a second positional argument or any other value is rejected. -/
theorem c9_cli_surface (v : String) :
    parse_args [] = some .debug ∧
    parse_args ["debug"] = some .debug ∧
    parse_args ["release"] = some .release ∧
    parse_args ["-m", "debug"] = some .debug ∧
    parse_args ["-m", "release"] = some .release ∧
    parse_args ["--model", "debug"] = some .debug ∧
    parse_args ["--model", "release"] = some .release ∧
    parse_args ["debug", "release"] = none ∧
    (v ≠ "debug" → v ≠ "release" →
      parse_args [v] = none ∧ parse_args ["-m", v] = none ∧
      parse_args ["--model", v] = none) := by
  refine ⟨by decide, by decide, by decide, by decide, by decide, by decide,
    by decide, by decide, fun h1 h2 => ?_⟩
  have hv : parse_model_value v = none := by
    unfold parse_model_value
    rw [if_neg h1, if_neg h2]
  refine ⟨?_, ?_, ?_⟩ <;> · simp only [parse_args]; exact hv

/-- C9 witness: the CLI surface evaluated at the rejected value "foo". -/
theorem c9_cli_surface_witness :
    parse_args [] = some BuildModel.debug ∧
    parse_args ["foo"] = none ∧
    parse_args ["-m", "foo"] = none ∧
    parse_args ["--model", "foo"] = none :=
  ⟨(c9_cli_surface "foo").1,
   ((c9_cli_surface "foo").2.2.2.2.2.2.2.2 (by decide) (by decide)).1,
   ((c9_cli_surface "foo").2.2.2.2.2.2.2.2 (by decide) (by decide)).2.1,
   ((c9_cli_surface "foo").2.2.2.2.2.2.2.2 (by decide) (by decide)).2.2⟩

/-- C10: two configurations that differ only in the `model` table (the
per-mode targetdir values) produce the same `RunOutput`: same directories,
same output path, byte-identical rendered content. -/
theorem c10_targetdir_never_influences_output (cfg : Config)
    (m : BuildModels) (mode : BuildModel) (plat : Platform) :
    run { cfg with model := m } mode plat = run cfg mode plat := by
  cases cfg with
  | mk l s f t a m₀ => exact run_model_irrel l s f t a m m₀ mode plat
